import Mathlib

/-!
Shallow embedding of the Veiled Solana program core
(`packages/anchor/programs/veiled/src/ultrahonk.rs` and
`packages/anchor/programs/veiled/src/lib.rs`).

Bytes are modelled as `Nat` (values `< 256` in well-formed inputs), byte
buffers as `List Nat`, unsigned 64-bit integers as `Nat`, and signed 64-bit
integers as `Int` (values in `[-(2^63), 2^63 - 1]` in well-formed states).
Fallible Rust functions returning `Result<T>` become `Except VeiledError T`.
-/

set_option maxRecDepth 8192

namespace Veiled

/-- Decidable equality of `Except` values, for evaluating the embedded
fallible functions on concrete inputs. -/
instance {ε α : Type} [DecidableEq ε] [DecidableEq α] :
    DecidableEq (Except ε α) := fun x y =>
  match x, y with
  | .error a, .error b =>
    if h : a = b then .isTrue (congrArg Except.error h)
    else .isFalse (fun hc => h (Except.error.inj hc))
  | .ok a, .ok b =>
    if h : a = b then .isTrue (congrArg Except.ok h)
    else .isFalse (fun hc => h (Except.ok.inj hc))
  | .error _, .ok _ => .isFalse (fun hc => Except.noConfusion hc)
  | .ok _, .error _ => .isFalse (fun hc => Except.noConfusion hc)

/-- The error codes of `errors.rs` (`VeiledError`), restricted to the
variants reachable from the verified core. -/
inductive VeiledError where
  | InvalidProof
  | DuplicateNullifier
  | ProofExpired
  | DomainTooLong
  | OffsetMismatch
  | InvalidInstructionData
  | InvalidSignatureCount
  | InvalidMessageSize
  | ProofHashMismatch
  | IsValidMismatch
  | AuthorityMismatch
  | BadEd25519Accounts
  deriving DecidableEq, Repr

/-- Little-endian read of two consecutive bytes as a 16-bit value:
`u16::from_le_bytes([data[i], data[i+1]])`.  Out-of-range indices read 0. -/
def le16 (data : List Nat) (i : Nat) : Nat :=
  data.getD i 0 + 256 * data.getD (i + 1) 0

/-- Little-endian decoding of a byte list as an unsigned 64-bit value:
`u64::from_le_bytes`. -/
def u64_from_le (bs : List Nat) : Nat :=
  bs.foldr (fun b acc => b + 256 * acc) 0

/-- Little-endian encoding of an unsigned 64-bit value as 8 bytes:
`u64::to_le_bytes`. -/
def u64_to_le (n : Nat) : List Nat :=
  (List.range 8).map (fun i => n / 256 ^ i % 256)

/-- Largest signed 64-bit value, `i64::MAX`. -/
def I64_MAX : Int := 2 ^ 63 - 1

/-- Smallest signed 64-bit value, `i64::MIN`. -/
def I64_MIN : Int := -(2 ^ 63)

/-- The Rust cast `x as i64` applied to a `u64` value: a bit-reinterpretation
that maps values `≥ 2^63` to negative numbers. -/
def u64_as_i64 (n : Nat) : Int :=
  if n < 2 ^ 63 then (n : Int) else (n : Int) - 2 ^ 64

/-- Rust `i64::saturating_sub`: subtraction clamped to the signed 64-bit
range instead of wrapping. -/
def i64_saturating_sub (a b : Int) : Int :=
  max I64_MIN (min I64_MAX (a - b))

/-- Standard UTF-8 validity of a byte sequence, as checked by Rust
`core::str::from_utf8` (RFC 3629: no overlong forms, no surrogates,
code points at most `U+10FFFF`). -/
def utf8Valid : List Nat → Bool
  | [] => true
  | b :: rest =>
    if b < 128 then utf8Valid rest
    else if b < 194 then false
    else if b < 224 then
      match rest with
      | c1 :: r => decide (128 ≤ c1 ∧ c1 < 192) && utf8Valid r
      | [] => false
    else if b < 240 then
      match rest with
      | c1 :: c2 :: r =>
        (if b = 224 then decide (160 ≤ c1 ∧ c1 < 192)
         else if b = 237 then decide (128 ≤ c1 ∧ c1 < 160)
         else decide (128 ≤ c1 ∧ c1 < 192)) &&
        decide (128 ≤ c2 ∧ c2 < 192) && utf8Valid r
      | _ => false
    else if b < 245 then
      match rest with
      | c1 :: c2 :: c3 :: r =>
        (if b = 240 then decide (144 ≤ c1 ∧ c1 < 192)
         else if b = 244 then decide (128 ≤ c1 ∧ c1 < 144)
         else decide (128 ≤ c1 ∧ c1 < 192)) &&
        decide (128 ≤ c2 ∧ c2 < 192) && decide (128 ≤ c3 ∧ c3 < 192) &&
        utf8Valid r
      | _ => false
    else false

/-- `ultrahonk.rs`: the decoded verification result ("attestation"):
`is_valid`, `proof_hash` (32 bytes), `timestamp` (u64), and the verifier's
Ed25519 signature (64 bytes). -/
structure VerificationResult where
  is_valid : Bool
  proof_hash : List Nat
  timestamp : Nat
  verifier_signature : List Nat
  deriving DecidableEq, Repr

/-- A Solana instruction as seen by instruction introspection: its target
program id (32 bytes), the number of attached account metas (the source only
ever tests `accounts.is_empty()`), and its data payload. -/
structure SolanaInstruction where
  program_id : List Nat
  accounts : Nat
  data : List Nat
  deriving DecidableEq, Repr

/-- The fixed 32-byte id of Solana's Ed25519 signature-verification program
(`ED25519_PROGRAM_ID` in `ultrahonk.rs`). -/
def ED25519_PROGRAM_ID : List Nat :=
  [0x03, 0x7d, 0x46, 0xd6, 0x7c, 0x93, 0xfb, 0xbe,
   0x12, 0xf9, 0x42, 0x8f, 0x83, 0x8d, 0x40, 0xff,
   0x05, 0x70, 0x74, 0x49, 0x27, 0xf4, 0x8a, 0x64,
   0xfc, 0xca, 0x70, 0x44, 0x80, 0x00, 0x00, 0x00]

/-- `VerificationResult::from_instruction_data`: requires at least 105 bytes
and reads, in order, 1 byte `is_valid` (true iff the byte is exactly 1),
32 bytes `proof_hash`, 8 bytes little-endian `timestamp`, and 64 bytes
`verifier_signature`; trailing bytes are never read. -/
def from_instruction_data (data : List Nat) :
    Except VeiledError VerificationResult :=
  if 105 ≤ data.length then
    .ok { is_valid := data.getD 0 0 == 1
          proof_hash := (data.drop 1).take 32
          timestamp := u64_from_le ((data.drop 33).take 8)
          verifier_signature := (data.drop 41).take 64 }
  else .error .InvalidProof

/-- The 41-byte signed message reconstructed by
`VerificationResult::validate_signature`:
`proof_hash (32) ++ is_valid-as-byte (1) ++ timestamp little-endian (8)`. -/
def signed_message (r : VerificationResult) : List Nat :=
  r.proof_hash ++ [if r.is_valid then 1 else 0] ++ u64_to_le r.timestamp

/-- `VerificationResult::ed25519_ix_matches`: parses one candidate Ed25519
program instruction payload and decides whether it attests to the expected
(public key, message, signature) triple.  The guard chain mirrors the
source's `require!` sequence: header length, signature count, offsets-table
bound, locality-index sentinel check, offset lower bounds, three slice
bounds, message size, then the content, authority and signature
comparisons.  `Ok false` means "this candidate does not match, keep
scanning"; every `error` is a hard failure. -/
def ed25519_ix_matches (data expected_pubkey expected_message
    expected_signature : List Nat) : Except VeiledError Bool :=
  if 16 ≤ data.length then
    if data.getD 0 0 = 1 then
      if 2 + 14 ≤ data.length then
        let signature_offset := le16 data 2
        let signature_ix_idx := le16 data 4
        let public_key_offset := le16 data 6
        let public_key_ix_idx := le16 data 8
        let message_offset := le16 data 10
        let message_size := le16 data 12
        let message_ix_idx := le16 data 14
        if signature_ix_idx = 65535 ∧ public_key_ix_idx = 65535 ∧
            message_ix_idx = 65535 then
          if 16 ≤ signature_offset ∧ 16 ≤ public_key_offset ∧
              16 ≤ message_offset then
            if signature_offset + 64 ≤ data.length then
              if public_key_offset + 32 ≤ data.length then
                if message_offset + message_size ≤ data.length then
                  if message_size = 41 then
                    let sig_bytes := (data.drop signature_offset).take 64
                    let pk_bytes := (data.drop public_key_offset).take 32
                    let msg_bytes := (data.drop message_offset).take 41
                    if msg_bytes.take 32 = expected_message.take 32 then
                      if msg_bytes.getD 32 0 = expected_message.getD 32 0 then
                        if pk_bytes = expected_pubkey then
                          if sig_bytes = expected_signature then .ok true
                          else .ok false
                        else .error .AuthorityMismatch
                      else .error .IsValidMismatch
                    else .error .ProofHashMismatch
                  else .error .InvalidMessageSize
                else .error .InvalidInstructionData
              else .error .InvalidInstructionData
            else .error .InvalidInstructionData
          else .error .InvalidInstructionData
        else .error .OffsetMismatch
      else .error .InvalidInstructionData
    else .error .InvalidSignatureCount
  else .error .InvalidInstructionData

/-- One step of `VerificationResult::verify_ed25519_instruction`'s loop over
the prior instructions in scan order (most recent first): instructions whose
program id is not the Ed25519 program are skipped; an Ed25519-program
instruction with attached accounts is a hard `BadEd25519Accounts` failure;
otherwise the candidate is matched, a hard error aborts, `true` succeeds and
`false` continues the scan.  An exhausted scan is `InvalidProof`. -/
def scan_ed25519 (expected_pubkey expected_message expected_signature :
    List Nat) : List SolanaInstruction → Except VeiledError Unit
  | [] => .error .InvalidProof
  | ix :: rest =>
    if ix.program_id = ED25519_PROGRAM_ID then
      if ix.accounts = 0 then
        match ed25519_ix_matches ix.data expected_pubkey expected_message
            expected_signature with
        | .error e => .error e
        | .ok true => .ok ()
        | .ok false =>
          scan_ed25519 expected_pubkey expected_message expected_signature
            rest
      else .error .BadEd25519Accounts
    else
      scan_ed25519 expected_pubkey expected_message expected_signature rest

/-- `VerificationResult::verify_ed25519_instruction`: `prior` lists the
instructions of the transaction that precede the current one, in
transaction order; the source iterates `(0..current_index).rev()`, i.e.
scans them from the most recent backwards. -/
def verify_ed25519_instruction (prior : List SolanaInstruction)
    (expected_pubkey expected_message expected_signature : List Nat) :
    Except VeiledError Unit :=
  scan_ed25519 expected_pubkey expected_message expected_signature
    prior.reverse

/-- `VerificationResult::validate_signature`: reconstructs the 41-byte
signed message and requires a matching Ed25519 instruction in the bundle. -/
def validate_signature (r : VerificationResult)
    (verifier_pubkey : List Nat) (prior : List SolanaInstruction) :
    Except VeiledError Unit :=
  verify_ed25519_instruction prior verifier_pubkey (signed_message r)
    r.verifier_signature

/-- `VerificationResult::is_recent`: computes
`age = current_timestamp.saturating_sub(self.timestamp as i64)` and fails
with `ProofExpired` when `age > 5 * 60`. -/
def is_recent (r : VerificationResult) (current_timestamp : Int) :
    Except VeiledError Unit :=
  let age := i64_saturating_sub current_timestamp (u64_as_i64 r.timestamp)
  let max_age : Int := 5 * 60
  if age ≤ max_age then .ok () else .error .ProofExpired

/-- The persistent `NullifierAccount` of `lib.rs`: the stored nullifier,
the domain label (a UTF-8 string, modelled as its byte list), and the two
timestamps. -/
structure NullifierAccount where
  nullifier : List Nat
  domain : List Nat
  created_at : Int
  expires_at : Int
  deriving DecidableEq, Repr

/-- A freshly created (or never admitted) account slot: Anchor's
`init_if_needed` zero-initialises the account data. -/
def zeroAccount : NullifierAccount :=
  { nullifier := List.replicate 32 0, domain := [], created_at := 0,
    expires_at := 0 }

/-- `lib.rs` `verify_auth`, acting on the PDA account selected by the
requested nullifier.  Steps, in source order: domain-label trim and UTF-8
check, attestation decode, companion-signature validation, freshness check,
validity-flag check, duplicate-nullifier check, and finally the write of
the new record.  `now` is the value of `Clock::get()?.unix_timestamp`. -/
def verify_auth (acct : NullifierAccount) (verification_result : List Nat)
    (nullifier : List Nat) (domain : List Nat) (authority : List Nat)
    (prior : List SolanaInstruction) (now : Int) :
    Except VeiledError NullifierAccount :=
  let domain_len := domain.findIdx (fun b => b == 0)
  if 0 < domain_len ∧ domain_len ≤ 32 then
    let domain_slice := domain.take domain_len
    if utf8Valid domain_slice then
      match from_instruction_data verification_result with
      | .error _ => .error .InvalidProof
      | .ok result =>
        match validate_signature result authority prior with
        | .error e => .error e
        | .ok _ =>
          match is_recent result now with
          | .error e => .error e
          | .ok _ =>
            if result.is_valid then
              if acct.nullifier ≠ List.replicate 32 0 ∧
                  acct.nullifier = nullifier then
                .error .DuplicateNullifier
              else
                .ok { nullifier := nullifier, domain := domain_slice,
                      created_at := now,
                      expires_at := now + 30 * 24 * 60 * 60 }
            else .error .InvalidProof
    else .error .DomainTooLong
  else .error .DomainTooLong

/-- The nullifier registry: one PDA account per 32-byte nullifier value
(`seeds = [b"nullifier", nullifier]`), all slots initially zeroed. -/
def Registry := List Nat → NullifierAccount

/-- The registry before any admission. -/
def freshRegistry : Registry := fun _ => zeroAccount

/-- One admission attempt against the registry: run `verify_auth` on the
slot keyed by the nullifier and, on success, store the produced record in
that slot.  On failure the runtime reverts the transaction, so the registry
is returned unchanged only through `run` below. -/
def admit_request (reg : Registry) (verification_result nullifier domain authority :
    List Nat) (prior : List SolanaInstruction) (now : Int) :
    Except VeiledError Registry :=
  match verify_auth (reg nullifier) verification_result nullifier domain
      authority prior now with
  | .ok acct => .ok (Function.update reg nullifier acct)
  | .error e => .error e

/-- An admission attempt with the runtime's all-or-nothing semantics made
explicit: the resulting registry together with the error, if any. -/
def run (reg : Registry) (verification_result nullifier domain authority :
    List Nat) (prior : List SolanaInstruction) (now : Int) :
    Registry × Option VeiledError :=
  match verify_auth (reg nullifier) verification_result nullifier domain
      authority prior now with
  | .ok acct => (Function.update reg nullifier acct, none)
  | .error e => (reg, some e)

/-- A request whose non-registry checks all pass: well-formed domain label,
decodable attestation, matching companion signature, fresh timestamp, and
validity flag set.  Exactly the conditions `verify_auth` tests before its
duplicate-nullifier check. -/
def request_ok (verification_result domain authority : List Nat)
    (prior : List SolanaInstruction) (now : Int) : Bool :=
  let domain_len := domain.findIdx (fun b => b == 0)
  decide (0 < domain_len) && decide (domain_len ≤ 32) &&
  utf8Valid (domain.take domain_len) &&
  match from_instruction_data verification_result with
  | .error _ => false
  | .ok r =>
    (match validate_signature r authority prior with
     | .ok _ => true
     | .error _ => false) &&
    (match is_recent r now with
     | .ok _ => true
     | .error _ => false) &&
    r.is_valid

/-! ### A concrete well-formed admission scenario, used as test data -/

/-- A concrete 32-byte proof hash. -/
def cHash : List Nat := List.replicate 32 17

/-- Little-endian bytes of the concrete timestamp 1000. -/
def cTsBytes : List Nat := [232, 3, 0, 0, 0, 0, 0, 0]

/-- A concrete 64-byte signature. -/
def cSig : List Nat := List.replicate 64 34

/-- A concrete 32-byte authority public key. -/
def cAuth : List Nat := List.replicate 32 1

/-- A concrete well-formed 105-byte verification-result buffer:
valid flag 1, hash `cHash`, timestamp 1000, signature `cSig`. -/
def cVR : List Nat := 1 :: (cHash ++ cTsBytes ++ cSig)

/-- The 41-byte signed message of the concrete attestation. -/
def cMsg : List Nat := cHash ++ [1] ++ cTsBytes

/-- A concrete Ed25519-program instruction payload matching the concrete
attestation: single entry, all three locality indices at the sentinel
65535, signature at offset 16, public key at 80, 41-byte message at 112. -/
def cCompanion : List Nat :=
  [1, 0, 16, 0, 255, 255, 80, 0, 255, 255, 112, 0, 41, 0, 255, 255] ++
  cSig ++ cAuth ++ cMsg

/-- The concrete companion instruction. -/
def cIx : SolanaInstruction := ⟨ED25519_PROGRAM_ID, 0, cCompanion⟩

/-- The concrete prior-instructions bundle: just the companion. -/
def cPrior : List SolanaInstruction := [cIx]

/-- A concrete 32-byte domain buffer holding the label "veil". -/
def cDom : List Nat := [118, 101, 105, 108] ++ List.replicate 28 0

/-- The all-zero nullifier. -/
def cN0 : List Nat := List.replicate 32 0

/-- A concrete nonzero nullifier. -/
def cN1 : List Nat := 5 :: List.replicate 31 0

/-- A second concrete nonzero nullifier, distinct from `cN1`. -/
def cN2 : List Nat := 6 :: List.replicate 31 0

/-- A concrete verification-result buffer with timestamp 0 (stale at any
`now > 300`), otherwise identical to `cVR`. -/
def cVRstale : List Nat := 1 :: (cHash ++ [0, 0, 0, 0, 0, 0, 0, 0] ++ cSig)

/-! ### Helper lemmas -/

/-- A contiguous slice of a list, written as `(drop, take)`, equals the
index-by-index read of the underlying list. -/
theorem slice_eq_map_range (l : List Nat) (a n : Nat) (h : a + n ≤ l.length) :
    (l.drop a).take n = (List.range n).map (fun i => l.getD (a + i) 0) := by
  apply List.ext_getElem
  · simp only [List.length_take, List.length_drop, List.length_map,
      List.length_range]
    omega
  · intro i h1 h2
    simp only [List.length_take, List.length_drop, List.length_map,
      List.length_range, lt_inf_iff] at h1 h2
    simp only [List.getElem_take, List.getElem_drop, List.getElem_map,
      List.getElem_range]
    rw [List.getD_eq_getElem?_getD, List.getElem?_eq_getElem (by omega)]
    rfl

/-- `getD` at an index below `n` is unchanged by `take n`. -/
theorem getD_take (l : List Nat) (n i : Nat) (h : i < n) :
    (l.take n).getD i 0 = l.getD i 0 := by
  simp [List.getD_eq_getElem?_getD, List.getElem?_take, h]

/-- Decoding reads only the first 105 bytes of the buffer. -/
theorem from_instruction_data_take :
    ∀ data : List Nat,
      from_instruction_data data = from_instruction_data (data.take 105) := by
  intro data
  unfold from_instruction_data
  by_cases h : 105 ≤ data.length
  · rw [if_pos h, if_pos (by simp [List.length_take]; omega)]
    have h0 : (data.take 105).getD 0 0 = data.getD 0 0 := getD_take _ _ _ (by omega)
    rw [h0]
    rw [List.drop_take, List.drop_take, List.drop_take,
        List.take_take, List.take_take, List.take_take]
    norm_num
  · rw [if_neg h, if_neg (by simp [List.length_take]; omega)]

/-- When all structural checks of `ed25519_ix_matches` pass, the result is
decided by the content, authority and signature comparisons on the
extracted slices. -/
theorem ed25519_ix_matches_checks_pass (data ePk eMsg eSig : List Nat)
    (hlen : 16 ≤ data.length) (hcount : data.getD 0 0 = 1)
    (hloc1 : le16 data 4 = 65535) (hloc2 : le16 data 8 = 65535)
    (hloc3 : le16 data 14 = 65535)
    (ho1 : 16 ≤ le16 data 2) (ho2 : 16 ≤ le16 data 6)
    (ho3 : 16 ≤ le16 data 10)
    (hb1 : le16 data 2 + 64 ≤ data.length)
    (hb2 : le16 data 6 + 32 ≤ data.length)
    (hb3 : le16 data 10 + le16 data 12 ≤ data.length)
    (hsize : le16 data 12 = 41) :
    ed25519_ix_matches data ePk eMsg eSig =
      (if ((data.drop (le16 data 10)).take 41).take 32 = eMsg.take 32 then
         if ((data.drop (le16 data 10)).take 41).getD 32 0 =
             eMsg.getD 32 0 then
           if (data.drop (le16 data 6)).take 32 = ePk then
             if (data.drop (le16 data 2)).take 64 = eSig then .ok true
             else .ok false
           else .error .AuthorityMismatch
         else .error .IsValidMismatch
       else .error .ProofHashMismatch) := by
  unfold ed25519_ix_matches
  rw [if_pos hlen, if_pos hcount, if_pos (show 2 + 14 ≤ data.length by omega)]
  rw [if_pos ⟨hloc1, hloc2, hloc3⟩, if_pos ⟨ho1, ho2, ho3⟩,
      if_pos hb1, if_pos hb2, if_pos hb3, if_pos hsize]

/-- `cCompanion` with the signature-locality index set to 0 instead of the
sentinel 65535. -/
def cCompanionBadSigLoc : List Nat :=
  [1, 0, 16, 0, 0, 0, 80, 0, 255, 255, 112, 0, 41, 0, 255, 255] ++
  cSig ++ cAuth ++ cMsg

/-- `cCompanion` with the public-key-locality index set to 0. -/
def cCompanionBadPkLoc : List Nat :=
  [1, 0, 16, 0, 255, 255, 80, 0, 0, 0, 112, 0, 41, 0, 255, 255] ++
  cSig ++ cAuth ++ cMsg

/-- `cCompanion` with the message-locality index set to 0. -/
def cCompanionBadMsgLoc : List Nat :=
  [1, 0, 16, 0, 255, 255, 80, 0, 255, 255, 112, 0, 41, 0, 0, 0] ++
  cSig ++ cAuth ++ cMsg

/-- `cCompanion` with a message whose 32 hash bytes differ from `cHash`. -/
def cCompanionBadHash : List Nat :=
  [1, 0, 16, 0, 255, 255, 80, 0, 255, 255, 112, 0, 41, 0, 255, 255] ++
  cSig ++ cAuth ++ (List.replicate 32 9 ++ [1] ++ cTsBytes)

/-- C2: for every candidate Ed25519 companion instruction payload that
reaches the locality check (well-formed header, entry count exactly 1), if
any one of the three locality-index fields — signature (bytes 4–5),
public key (bytes 8–9) or message (bytes 14–15) — differs from the
sentinel `u16::MAX = 65535`, matching fails hard with `OffsetMismatch`,
for every choice of expected public key, message and signature (so in
particular even when all the content bytes would match). -/
theorem locality_check_offset_mismatch (data ePk eMsg eSig : List Nat)
    (hlen : 16 ≤ data.length) (hcount : data.getD 0 0 = 1)
    (hbad : le16 data 4 ≠ 65535 ∨ le16 data 8 ≠ 65535 ∨
      le16 data 14 ≠ 65535) :
    ed25519_ix_matches data ePk eMsg eSig = .error .OffsetMismatch := by
  unfold ed25519_ix_matches
  rw [if_pos hlen, if_pos hcount, if_pos (show 2 + 14 ≤ data.length by omega),
      if_neg (by tauto)]

/-- C2 witness: each of the three individually mismatched locality fields,
on otherwise fully matching concrete payloads, yields `OffsetMismatch`. -/
theorem locality_check_offset_mismatch_witness :
    (16 ≤ cCompanionBadSigLoc.length ∧ cCompanionBadSigLoc.getD 0 0 = 1 ∧
      ed25519_ix_matches cCompanionBadSigLoc cAuth cMsg cSig =
        .error .OffsetMismatch) ∧
    (ed25519_ix_matches cCompanionBadPkLoc cAuth cMsg cSig =
        .error .OffsetMismatch) ∧
    (ed25519_ix_matches cCompanionBadMsgLoc cAuth cMsg cSig =
        .error .OffsetMismatch) :=
  ⟨⟨by decide, by decide,
    locality_check_offset_mismatch _ _ _ _ (by decide) (by decide)
      (Or.inl (by decide))⟩,
   locality_check_offset_mismatch _ _ _ _ (by decide) (by decide)
      (Or.inr (Or.inl (by decide))),
   locality_check_offset_mismatch _ _ _ _ (by decide) (by decide)
      (Or.inr (Or.inr (by decide)))⟩

/-- C6: for every candidate payload passing the locality, bounds and size
checks: a mismatch in the extracted message's first 32 bytes fails hard
with `ProofHashMismatch` (the spec's ContentHashMismatch); with the hash
bytes equal, a mismatch in the validity-flag byte (message byte 32) fails
hard with `IsValidMismatch` (the spec's ValidityFlagMismatch); with both
equal, a public-key mismatch fails hard with `AuthorityMismatch`; with all
three equal, a signature mismatch makes the candidate non-matching
(`Ok false`, scanning continues) rather than a hard failure. -/
theorem content_checks (data ePk eMsg eSig : List Nat)
    (hlen : 16 ≤ data.length) (hcount : data.getD 0 0 = 1)
    (hloc1 : le16 data 4 = 65535) (hloc2 : le16 data 8 = 65535)
    (hloc3 : le16 data 14 = 65535)
    (ho1 : 16 ≤ le16 data 2) (ho2 : 16 ≤ le16 data 6)
    (ho3 : 16 ≤ le16 data 10)
    (hb1 : le16 data 2 + 64 ≤ data.length)
    (hb2 : le16 data 6 + 32 ≤ data.length)
    (hb3 : le16 data 10 + le16 data 12 ≤ data.length)
    (hsize : le16 data 12 = 41) :
    (((data.drop (le16 data 10)).take 41).take 32 ≠ eMsg.take 32 →
      ed25519_ix_matches data ePk eMsg eSig = .error .ProofHashMismatch) ∧
    (((data.drop (le16 data 10)).take 41).take 32 = eMsg.take 32 →
      ((data.drop (le16 data 10)).take 41).getD 32 0 ≠ eMsg.getD 32 0 →
      ed25519_ix_matches data ePk eMsg eSig = .error .IsValidMismatch) ∧
    (((data.drop (le16 data 10)).take 41).take 32 = eMsg.take 32 →
      ((data.drop (le16 data 10)).take 41).getD 32 0 = eMsg.getD 32 0 →
      (data.drop (le16 data 6)).take 32 ≠ ePk →
      ed25519_ix_matches data ePk eMsg eSig = .error .AuthorityMismatch) ∧
    (((data.drop (le16 data 10)).take 41).take 32 = eMsg.take 32 →
      ((data.drop (le16 data 10)).take 41).getD 32 0 = eMsg.getD 32 0 →
      (data.drop (le16 data 6)).take 32 = ePk →
      (data.drop (le16 data 2)).take 64 ≠ eSig →
      ed25519_ix_matches data ePk eMsg eSig = .ok false) := by
  have hu := ed25519_ix_matches_checks_pass data ePk eMsg eSig hlen hcount
    hloc1 hloc2 hloc3 ho1 ho2 ho3 hb1 hb2 hb3 hsize
  refine ⟨fun h1 => ?_, fun h1 h2 => ?_, fun h1 h2 h3 => ?_,
    fun h1 h2 h3 h4 => ?_⟩
  · rw [hu, if_neg h1]
  · rw [hu, if_pos h1, if_neg h2]
  · rw [hu, if_pos h1, if_pos h2, if_neg h3]
  · rw [hu, if_pos h1, if_pos h2, if_pos h3, if_neg h4]

/-- C6 witness: on a concrete payload whose embedded message hash differs
from the expected one, matching fails with `ProofHashMismatch`; on a
concrete payload agreeing on message and public key but not signature, the
candidate is skipped with `Ok false`. -/
theorem content_checks_witness :
    (ed25519_ix_matches cCompanionBadHash cAuth cMsg cSig =
      .error .ProofHashMismatch) ∧
    (ed25519_ix_matches cCompanion cAuth cMsg (List.replicate 64 35) =
      .ok false) :=
  ⟨(content_checks cCompanionBadHash cAuth cMsg cSig (by decide) (by decide)
      (by decide) (by decide) (by decide) (by decide) (by decide) (by decide)
      (by decide) (by decide) (by decide) (by decide)).1 (by decide),
   (content_checks cCompanion cAuth cMsg (List.replicate 64 35) (by decide)
      (by decide) (by decide) (by decide) (by decide) (by decide) (by decide)
      (by decide) (by decide) (by decide) (by decide) (by decide)).2.2.2
      (by decide) (by decide) (by decide) (by decide)⟩

/-- C7 counterexample: an empty candidate payload (shorter than the 16-byte
header) fails with `InvalidInstructionData`, not with
`InvalidSignatureCount` as the claim's wording assigns to the combined
length-and-count condition. -/
theorem parse_checks_counterexample :
    ed25519_ix_matches [] [] [] [] = .error .InvalidInstructionData ∧
    VeiledError.InvalidInstructionData ≠ VeiledError.InvalidSignatureCount :=
  ⟨by decide, by decide⟩

/-- C7 (amended): the parse of a candidate payload enforces, in order:
payload length at least 16, else `InvalidInstructionData`; entry count in
byte 0 exactly 1, else `InvalidSignatureCount`; after the locality checks
pass, all three offsets at least 16 and the payload long enough for the 64
signature bytes, 32 public-key bytes and the declared number of message
bytes, else `InvalidInstructionData`; and a declared message size of
exactly 41, else `InvalidMessageSize`. -/
theorem parse_checks (data ePk eMsg eSig : List Nat) :
    (data.length < 16 →
      ed25519_ix_matches data ePk eMsg eSig = .error .InvalidInstructionData) ∧
    (16 ≤ data.length → data.getD 0 0 ≠ 1 →
      ed25519_ix_matches data ePk eMsg eSig = .error .InvalidSignatureCount) ∧
    (16 ≤ data.length → data.getD 0 0 = 1 →
      le16 data 4 = 65535 → le16 data 8 = 65535 → le16 data 14 = 65535 →
      ¬(16 ≤ le16 data 2 ∧ 16 ≤ le16 data 6 ∧ 16 ≤ le16 data 10 ∧
        le16 data 2 + 64 ≤ data.length ∧ le16 data 6 + 32 ≤ data.length ∧
        le16 data 10 + le16 data 12 ≤ data.length) →
      ed25519_ix_matches data ePk eMsg eSig = .error .InvalidInstructionData) ∧
    (16 ≤ data.length → data.getD 0 0 = 1 →
      le16 data 4 = 65535 → le16 data 8 = 65535 → le16 data 14 = 65535 →
      16 ≤ le16 data 2 → 16 ≤ le16 data 6 → 16 ≤ le16 data 10 →
      le16 data 2 + 64 ≤ data.length → le16 data 6 + 32 ≤ data.length →
      le16 data 10 + le16 data 12 ≤ data.length → le16 data 12 ≠ 41 →
      ed25519_ix_matches data ePk eMsg eSig = .error .InvalidMessageSize) := by
  refine ⟨fun h => ?_, fun h1 h2 => ?_, fun h1 h2 l1 l2 l3 hb => ?_,
    fun h1 h2 l1 l2 l3 o1 o2 o3 b1 b2 b3 hs => ?_⟩
  · unfold ed25519_ix_matches
    rw [if_neg (by omega)]
  · unfold ed25519_ix_matches
    rw [if_pos h1, if_neg h2]
  · unfold ed25519_ix_matches
    rw [if_pos h1, if_pos h2, if_pos (show 2 + 14 ≤ data.length by omega),
        if_pos ⟨l1, l2, l3⟩]
    by_cases ho : 16 ≤ le16 data 2 ∧ 16 ≤ le16 data 6 ∧ 16 ≤ le16 data 10
    · rw [if_pos ho]
      by_cases hs1 : le16 data 2 + 64 ≤ data.length
      · rw [if_pos hs1]
        by_cases hs2 : le16 data 6 + 32 ≤ data.length
        · rw [if_pos hs2, if_neg (by tauto)]
        · rw [if_neg hs2]
      · rw [if_neg hs1]
    · rw [if_neg ho]
  · unfold ed25519_ix_matches
    rw [if_pos h1, if_pos h2, if_pos (show 2 + 14 ≤ data.length by omega),
        if_pos ⟨l1, l2, l3⟩, if_pos ⟨o1, o2, o3⟩, if_pos b1, if_pos b2,
        if_pos b3, if_neg hs]

/-- C4 counterexample: for the timestamp `2^63` (not representable as a
non-negative signed 64-bit value) and current time 0, a true saturating
subtraction of the timestamp gives age `-(2^63) ≤ 300`, so the claim
predicts success; but the code first reinterprets the unsigned timestamp as
a signed 64-bit value, which wraps to `-(2^63)`, and then rejects the
attestation as stale. -/
theorem is_recent_counterexample :
    is_recent { is_valid := true, proof_hash := cHash, timestamp := 2 ^ 63,
                verifier_signature := cSig } 0 = .error .ProofExpired ∧
    i64_saturating_sub 0 ((2 ^ 63 : Nat) : Int) ≤ 300 := by
  constructor
  · decide
  · decide

/-- Saturating to the signed 64-bit range never moves a difference across
the 300-second threshold: both clamp bounds are on the same side of 300. -/
theorem i64_saturating_sub_le_300 (a b : Int) :
    i64_saturating_sub a b ≤ 300 ↔ a - b ≤ 300 := by
  unfold i64_saturating_sub I64_MIN I64_MAX
  constructor
  · intro h
    have h1 := le_max_right (-(2 : Int) ^ 63)
      (min ((2 : Int) ^ 63 - 1) (a - b))
    by_contra hc
    push_neg at hc
    have h2 : (300 : Int) < min ((2 : Int) ^ 63 - 1) (a - b) :=
      lt_min (by norm_num) hc
    omega
  · intro h
    exact max_le (by norm_num) (le_trans (min_le_right _ _) h)

/-- C4 (amended): for every attestation whose timestamp is below `2^63`
(representable as a non-negative signed 64-bit value), the freshness check
computes `age = current_time - timestamp` by saturating subtraction
without underflow or wrap, and fails with `ProofExpired` exactly when
`age > 300`; in particular for `now - timestamp > 300` it fails regardless
of any signature material.  For timestamps at or above `2^63` the cast
`timestamp as i64` first wraps the value to `timestamp - 2^64`, and the
check fails exactly when `current_time - (timestamp - 2^64) > 300`. -/
theorem is_recent_amended (r : VerificationResult) (now : Int) :
    (r.timestamp < 2 ^ 63 →
      (is_recent r now = .error .ProofExpired ↔
        300 < now - (r.timestamp : Int)) ∧
      (is_recent r now = .ok () ↔ now - (r.timestamp : Int) ≤ 300)) ∧
    (2 ^ 63 ≤ r.timestamp →
      (is_recent r now = .error .ProofExpired ↔
        300 < now - ((r.timestamp : Int) - 2 ^ 64)) ∧
      (is_recent r now = .ok () ↔
        now - ((r.timestamp : Int) - 2 ^ 64) ≤ 300)) := by
  constructor
  · intro hts
    simp only [is_recent, u64_as_i64, if_pos hts]
    have hc : i64_saturating_sub now (r.timestamp : Int) ≤ 5 * 60 ↔
        now - (r.timestamp : Int) ≤ 300 := by
      rw [show (5 : Int) * 60 = 300 from by norm_num]
      exact i64_saturating_sub_le_300 now (r.timestamp : Int)
    by_cases h : now - (r.timestamp : Int) ≤ 300
    · rw [if_pos (hc.mpr h)]
      refine ⟨⟨fun hh => by exact absurd hh (by simp), fun hh => by omega⟩,
        ⟨fun _ => h, fun _ => rfl⟩⟩
    · rw [if_neg (fun hx => h (hc.mp hx))]
      refine ⟨⟨fun _ => by omega, fun _ => rfl⟩,
        ⟨fun hh => by exact absurd hh (by simp), fun hh => absurd hh h⟩⟩
  · intro hts
    simp only [is_recent, u64_as_i64, if_neg (not_lt.mpr hts)]
    have hc : i64_saturating_sub now ((r.timestamp : Int) - 2 ^ 64) ≤
        5 * 60 ↔ now - ((r.timestamp : Int) - 2 ^ 64) ≤ 300 := by
      rw [show (5 : Int) * 60 = 300 from by norm_num]
      exact i64_saturating_sub_le_300 now ((r.timestamp : Int) - 2 ^ 64)
    by_cases h : now - ((r.timestamp : Int) - 2 ^ 64) ≤ 300
    · rw [if_pos (hc.mpr h)]
      refine ⟨⟨fun hh => by exact absurd hh (by simp), fun hh => by omega⟩,
        ⟨fun _ => h, fun _ => rfl⟩⟩
    · rw [if_neg (fun hx => h (hc.mp hx))]
      refine ⟨⟨fun _ => by omega, fun _ => rfl⟩,
        ⟨fun hh => by exact absurd hh (by simp), fun hh => absurd hh h⟩⟩

/-- C4 witness: a concrete attestation with timestamp 1000 checked at time
1400 (age 400) is rejected as stale; and a concrete attestation with the
wrapped timestamp `2^64 - 1` (which the cast reinterprets as -1) checked
at time 0 passes the freshness check, since the wrapped age is 1. -/
theorem is_recent_amended_witness :
    ((1000 : Nat) < 2 ^ 63 ∧
      is_recent { is_valid := true, proof_hash := cHash, timestamp := 1000,
                  verifier_signature := cSig } 1400 =
        .error .ProofExpired) ∧
    ((2 : Nat) ^ 63 ≤ 2 ^ 64 - 1 ∧
      is_recent { is_valid := true, proof_hash := cHash,
                  timestamp := 2 ^ 64 - 1,
                  verifier_signature := cSig } 0 = .ok ()) :=
  ⟨⟨by norm_num,
    ((is_recent_amended
        { is_valid := true, proof_hash := cHash, timestamp := 1000,
          verifier_signature := cSig } 1400).1 (by norm_num)).1.mpr
      (by norm_num)⟩,
   ⟨by norm_num,
    ((is_recent_amended
        { is_valid := true, proof_hash := cHash, timestamp := 2 ^ 64 - 1,
          verifier_signature := cSig } 0).2 (by norm_num)).2.mpr
      (by norm_num)⟩⟩

/-- C10: for every attestation whose timestamp is representable as a
non-negative signed 64-bit value and lies strictly in the future of the
trusted clock, the freshness check succeeds: the computed age is negative,
hence at most 300, so arbitrarily far future-dated attestations are never
rejected as stale. -/
theorem future_timestamps_pass (r : VerificationResult) (now : Int)
    (hts : r.timestamp < 2 ^ 63) (hfut : now < (r.timestamp : Int)) :
    is_recent r now = .ok () := by
  simp only [is_recent, u64_as_i64, i64_saturating_sub, I64_MAX, I64_MIN,
    if_pos hts]
  have hmin : min ((2 : Int) ^ 63 - 1) (now - (r.timestamp : Int)) =
      now - (r.timestamp : Int) := min_eq_right (by omega)
  rw [if_pos (by rw [hmin]; exact max_le (by norm_num) (by omega))]

/-- C10 witness: an attestation dated 1000 seconds after the epoch checked
at time 0 passes the freshness check. -/
theorem future_timestamps_pass_witness :
    (1000 < 2 ^ 63 ∧ (0 : Int) < ((1000 : Nat) : Int)) ∧
    is_recent { is_valid := true, proof_hash := cHash, timestamp := 1000,
                verifier_signature := cSig } 0 = .ok () :=
  ⟨⟨by norm_num, by norm_num⟩,
   future_timestamps_pass
      { is_valid := true, proof_hash := cHash, timestamp := 1000,
        verifier_signature := cSig } 0 (by norm_num) (by norm_num)⟩

/-- C5: decoding a buffer shorter than 105 bytes fails with the
malformed-input error `InvalidProof`; decoding a buffer of length at least
105 succeeds and interprets exactly the first 105 bytes — byte 0 as the
validity flag (true iff exactly 1), bytes 1–32 as the content hash, bytes
33–40 as the little-endian unsigned 64-bit timestamp, bytes 41–104 as the
signature — and any two buffers agreeing on their first 105 bytes decode
identically. -/
theorem decode_characterization (data : List Nat) :
    (data.length < 105 → from_instruction_data data = .error .InvalidProof) ∧
    (105 ≤ data.length →
      from_instruction_data data = .ok
        { is_valid := data.getD 0 0 == 1
          proof_hash := (List.range 32).map (fun i => data.getD (1 + i) 0)
          timestamp :=
            u64_from_le ((List.range 8).map (fun i => data.getD (33 + i) 0))
          verifier_signature :=
            (List.range 64).map (fun i => data.getD (41 + i) 0) } ∧
      ∀ data2 : List Nat, data2.take 105 = data.take 105 →
        from_instruction_data data2 = from_instruction_data data) := by
  refine ⟨fun h => ?_, fun h => ⟨?_, fun data2 h2 => ?_⟩⟩
  · unfold from_instruction_data
    rw [if_neg (by omega)]
  · unfold from_instruction_data
    rw [if_pos h, slice_eq_map_range data 1 32 (by omega),
        slice_eq_map_range data 33 8 (by omega),
        slice_eq_map_range data 41 64 (by omega)]
  · rw [from_instruction_data_take data2, from_instruction_data_take data, h2]

/-- C5 witness: the concrete 105-byte buffer `cVR` decodes to its field
values, and appending a trailing byte leaves the decode unchanged. -/
theorem decode_characterization_witness :
    105 ≤ cVR.length ∧
    from_instruction_data cVR = .ok
      { is_valid := cVR.getD 0 0 == 1
        proof_hash := (List.range 32).map (fun i => cVR.getD (1 + i) 0)
        timestamp :=
          u64_from_le ((List.range 8).map (fun i => cVR.getD (33 + i) 0))
        verifier_signature :=
          (List.range 64).map (fun i => cVR.getD (41 + i) 0) } ∧
    from_instruction_data (cVR ++ [9]) = from_instruction_data cVR :=
  ⟨by decide, ((decode_characterization cVR).2 (by decide)).1,
   ((decode_characterization cVR).2 (by decide)).2 (cVR ++ [9]) (by decide)⟩

/-- C8: during the companion-signature scan, an instruction whose program
id is not the Ed25519 program id is skipped (the scan result is that of the
remaining instructions); an instruction targeting the Ed25519 program with
a nonzero number of attached accounts makes the scan fail hard with
`BadEd25519Accounts`; and when every prior instruction is either
non-Ed25519 or an account-free candidate whose signature comparison comes
out false (so no candidate satisfies all checks and no hard failure
occurs), the whole verification fails with `InvalidProof`, the code's
no-valid-companion-signature error. -/
theorem scan_behaviour (ePk eMsg eSig : List Nat) :
    (∀ (ix : SolanaInstruction) (rest : List SolanaInstruction),
      ix.program_id ≠ ED25519_PROGRAM_ID →
      scan_ed25519 ePk eMsg eSig (ix :: rest) =
        scan_ed25519 ePk eMsg eSig rest) ∧
    (∀ (ix : SolanaInstruction) (rest : List SolanaInstruction),
      ix.program_id = ED25519_PROGRAM_ID → ix.accounts ≠ 0 →
      scan_ed25519 ePk eMsg eSig (ix :: rest) = .error .BadEd25519Accounts) ∧
    (∀ prior : List SolanaInstruction,
      (∀ ix ∈ prior, ix.program_id ≠ ED25519_PROGRAM_ID ∨
        (ix.accounts = 0 ∧
          ed25519_ix_matches ix.data ePk eMsg eSig = .ok false)) →
      verify_ed25519_instruction prior ePk eMsg eSig =
        .error .InvalidProof) := by
  have hscan : ∀ l : List SolanaInstruction,
      (∀ ix ∈ l, ix.program_id ≠ ED25519_PROGRAM_ID ∨
        (ix.accounts = 0 ∧
          ed25519_ix_matches ix.data ePk eMsg eSig = .ok false)) →
      scan_ed25519 ePk eMsg eSig l = .error .InvalidProof := by
    intro l
    induction l with
    | nil => intro _; rfl
    | cons ix rest ih =>
      intro hall
      have htail := fun i hi => hall i (List.mem_cons_of_mem _ hi)
      by_cases hprog : ix.program_id = ED25519_PROGRAM_ID
      · rcases hall ix (List.mem_cons_self ix rest) with hskip | ⟨hacc, hmatch⟩
        · exact absurd hprog hskip
        · simp only [scan_ed25519]
          rw [if_pos hprog, if_pos hacc, hmatch]
          exact ih htail
      · simp only [scan_ed25519]
        rw [if_neg hprog]
        exact ih htail
  refine ⟨fun ix rest h => ?_, fun ix rest h1 h2 => ?_, fun prior hall => ?_⟩
  · simp only [scan_ed25519]
    rw [if_neg h]
  · simp only [scan_ed25519]
    rw [if_pos h1, if_neg h2]
  · unfold verify_ed25519_instruction
    exact hscan prior.reverse
      (fun i hi => hall i (List.mem_reverse.mp hi))

/-- C8 witness: a bundle holding one Ed25519-program instruction with an
attached account fails hard with `BadEd25519Accounts`, and a bundle whose
only instruction targets a different program yields `InvalidProof`. -/
theorem scan_behaviour_witness :
    ((⟨ED25519_PROGRAM_ID, 1, cCompanion⟩ :
        SolanaInstruction).program_id = ED25519_PROGRAM_ID ∧
      scan_ed25519 cAuth cMsg cSig [⟨ED25519_PROGRAM_ID, 1, cCompanion⟩] =
        .error .BadEd25519Accounts) ∧
    verify_ed25519_instruction [⟨cAuth, 0, cCompanion⟩] cAuth cMsg cSig =
      .error .InvalidProof :=
  ⟨⟨rfl, (scan_behaviour cAuth cMsg cSig).2.1 _ [] rfl (by decide)⟩,
   (scan_behaviour cAuth cMsg cSig).2.2 [⟨cAuth, 0, cCompanion⟩]
     (by intro ix hix
         simp only [List.mem_singleton] at hix
         subst hix
         exact Or.inl (by decide))⟩

/-- The candidate matcher never produces the replay error. -/
theorem ed25519_ix_matches_ne_dup (data ePk eMsg eSig : List Nat) :
    ed25519_ix_matches data ePk eMsg eSig ≠ .error .DuplicateNullifier := by
  intro h
  unfold ed25519_ix_matches at h
  by_cases c1 : 16 ≤ data.length
  · rw [if_pos c1] at h
    by_cases c2 : data.getD 0 0 = 1
    · rw [if_pos c2] at h
      by_cases c3 : 2 + 14 ≤ data.length
      · rw [if_pos c3] at h
        by_cases c4 : le16 data 4 = 65535 ∧ le16 data 8 = 65535 ∧
            le16 data 14 = 65535
        · rw [if_pos c4] at h
          by_cases c5 : 16 ≤ le16 data 2 ∧ 16 ≤ le16 data 6 ∧
              16 ≤ le16 data 10
          · rw [if_pos c5] at h
            by_cases c6 : le16 data 2 + 64 ≤ data.length
            · rw [if_pos c6] at h
              by_cases c7 : le16 data 6 + 32 ≤ data.length
              · rw [if_pos c7] at h
                by_cases c8 : le16 data 10 + le16 data 12 ≤ data.length
                · rw [if_pos c8] at h
                  by_cases c9 : le16 data 12 = 41
                  · rw [if_pos c9] at h
                    by_cases c10 : ((data.drop (le16 data 10)).take 41).take
                        32 = eMsg.take 32
                    · rw [if_pos c10] at h
                      by_cases c11 : ((data.drop (le16 data 10)).take
                          41).getD 32 0 = eMsg.getD 32 0
                      · rw [if_pos c11] at h
                        by_cases c12 : (data.drop (le16 data 6)).take 32 = ePk
                        · rw [if_pos c12] at h
                          by_cases c13 : (data.drop (le16 data 2)).take 64 =
                              eSig
                          · rw [if_pos c13] at h
                            simp at h
                          · rw [if_neg c13] at h
                            simp at h
                        · rw [if_neg c12] at h
                          simp at h
                      · rw [if_neg c11] at h
                        simp at h
                    · rw [if_neg c10] at h
                      simp at h
                  · rw [if_neg c9] at h
                    simp at h
                · rw [if_neg c8] at h
                  simp at h
              · rw [if_neg c7] at h
                simp at h
            · rw [if_neg c6] at h
              simp at h
          · rw [if_neg c5] at h
            simp at h
        · rw [if_neg c4] at h
          simp at h
      · rw [if_neg c3] at h
        simp at h
    · rw [if_neg c2] at h
      simp at h
  · rw [if_neg c1] at h
    simp at h

/-- The freshness check never produces the replay error. -/
theorem is_recent_ne_dup (r : VerificationResult) (now : Int) :
    is_recent r now ≠ .error .DuplicateNullifier := by
  intro h
  unfold is_recent at h
  by_cases c : i64_saturating_sub now (u64_as_i64 r.timestamp) ≤ 5 * 60
  · rw [if_pos c] at h
    simp at h
  · rw [if_neg c] at h
    simp at h

/-- The companion-signature scan never produces the replay error. -/
theorem scan_ed25519_ne_dup (ePk eMsg eSig : List Nat)
    (l : List SolanaInstruction) :
    scan_ed25519 ePk eMsg eSig l ≠ .error .DuplicateNullifier := by
  induction l with
  | nil => simp [scan_ed25519]
  | cons ix rest ih =>
    intro h
    simp only [scan_ed25519] at h
    by_cases hprog : ix.program_id = ED25519_PROGRAM_ID
    · rw [if_pos hprog] at h
      by_cases hacc : ix.accounts = 0
      · rw [if_pos hacc] at h
        rcases hm : ed25519_ix_matches ix.data ePk eMsg eSig with e | b
        · rw [hm] at h
          dsimp only [] at h
          injection h with h2
          exact ed25519_ix_matches_ne_dup ix.data ePk eMsg eSig (h2 ▸ hm)
        · cases b
          · rw [hm] at h
            dsimp only [] at h
            exact ih h
          · rw [hm] at h
            dsimp only [] at h
            exact Except.noConfusion h
      · rw [if_neg hacc] at h
        simp at h
    · rw [if_neg hprog] at h
      exact ih h

/-- Companion-signature validation never produces the replay error. -/
theorem validate_signature_ne_dup (r : VerificationResult)
    (auth : List Nat) (prior : List SolanaInstruction) :
    validate_signature r auth prior ≠ .error .DuplicateNullifier :=
  scan_ed25519_ne_dup _ _ _ _

/-- When all of a request's non-registry checks pass, `verify_auth` is
decided entirely by the duplicate-nullifier test: it rejects with
`DuplicateNullifier` when a nonzero stored nullifier equals the requested
one and otherwise writes the new record. -/
theorem verify_auth_of_request_ok (acct : NullifierAccount)
    (vr N dom auth : List Nat) (prior : List SolanaInstruction) (now : Int)
    (h : request_ok vr dom auth prior now = true) :
    verify_auth acct vr N dom auth prior now =
      if acct.nullifier ≠ List.replicate 32 0 ∧ acct.nullifier = N then
        .error .DuplicateNullifier
      else
        .ok { nullifier := N,
              domain := dom.take (dom.findIdx (fun b => b == 0)),
              created_at := now, expires_at := now + 30 * 24 * 60 * 60 } := by
  unfold request_ok at h
  unfold verify_auth
  rcases hfd : from_instruction_data vr with e | r
  · rw [hfd] at h
    simp at h
  · rw [hfd] at h
    dsimp only [] at h
    rcases hvs : validate_signature r auth prior with e2 | u
    · rw [hvs] at h
      simp at h
    · rcases hir : is_recent r now with e3 | u2
      · rw [hir] at h
        simp at h
      · rw [hvs, hir] at h
        dsimp only [] at h
        simp only [Bool.and_eq_true, decide_eq_true_eq] at h
        obtain ⟨⟨⟨h1, h2⟩, h3⟩, h4⟩ := h
        dsimp only []
        rw [hvs, hir]
        dsimp only []
        rw [if_pos ⟨h1, h2⟩, if_pos h3]
        simp only [h4, if_true]

/-- A slot already holding the requested nonzero nullifier can never be
admitted again: `verify_auth` has no successful outcome there. -/
theorem verify_auth_ne_ok_of_stored (acct : NullifierAccount)
    (vr N dom auth : List Nat) (prior : List SolanaInstruction) (now : Int)
    (hstored : acct.nullifier = N) (hNz : N ≠ List.replicate 32 0) :
    ∀ acct2 : NullifierAccount,
      verify_auth acct vr N dom auth prior now ≠ .ok acct2 := by
  intro acct2 hok
  unfold verify_auth at hok
  repeat (any_goals split at hok)
  all_goals simp_all [ite_eq_iff]

/-- A `DuplicateNullifier` outcome happens only through the duplicate
check: the stored nullifier is nonzero and equals the requested one. -/
theorem verify_auth_dup_implies (acct : NullifierAccount)
    (vr N dom auth : List Nat) (prior : List SolanaInstruction) (now : Int)
    (h : verify_auth acct vr N dom auth prior now =
      .error .DuplicateNullifier) :
    acct.nullifier ≠ List.replicate 32 0 ∧ acct.nullifier = N := by
  unfold verify_auth at h
  by_cases hd1 : 0 < dom.findIdx (fun b => b == 0) ∧
      dom.findIdx (fun b => b == 0) ≤ 32
  · rw [if_pos hd1] at h
    by_cases hd2 : utf8Valid (dom.take (dom.findIdx (fun b => b == 0))) = true
    · rw [if_pos hd2] at h
      rcases hfd : from_instruction_data vr with e | r
      · rw [hfd] at h
        simp at h
      · rw [hfd] at h
        dsimp only [] at h
        rcases hvs : validate_signature r auth prior with e2 | u
        · rw [hvs] at h
          dsimp only [] at h
          injection h with h2
          exact absurd (h2 ▸ hvs) (validate_signature_ne_dup r auth prior)
        · rw [hvs] at h
          dsimp only [] at h
          rcases hir : is_recent r now with e3 | u2
          · rw [hir] at h
            dsimp only [] at h
            injection h with h2
            exact absurd (h2 ▸ hir) (is_recent_ne_dup r now)
          · rw [hir] at h
            dsimp only [] at h
            by_cases hv : r.is_valid = true
            · rw [if_pos hv] at h
              by_cases hdup : acct.nullifier ≠ List.replicate 32 0 ∧
                  acct.nullifier = N
              · exact hdup
              · rw [if_neg hdup] at h
                simp at h
            · rw [if_neg hv] at h
              simp at h
    · rw [if_neg hd2] at h
      simp at h
  · rw [if_neg hd1] at h
    simp at h

/-- C9: with the all-zero 32-byte nullifier, `verify_auth` can never fail
with `DuplicateNullifier` — the duplicate check requires the stored
nullifier to be nonzero and equal to the requested one — and a repeated
admission with the all-zero nullifier and an otherwise valid request
succeeds against any stored record, overwriting its timestamps. -/
theorem zero_nullifier_no_duplicate :
    (∀ (acct : NullifierAccount) (vr dom auth : List Nat)
        (prior : List SolanaInstruction) (now : Int),
      verify_auth acct vr (List.replicate 32 0) dom auth prior now ≠
        .error .DuplicateNullifier) ∧
    (∀ (acct : NullifierAccount) (vr dom auth : List Nat)
        (prior : List SolanaInstruction) (now : Int),
      request_ok vr dom auth prior now = true →
      verify_auth acct vr (List.replicate 32 0) dom auth prior now =
        .ok { nullifier := List.replicate 32 0,
              domain := dom.take (dom.findIdx (fun b => b == 0)),
              created_at := now,
              expires_at := now + 30 * 24 * 60 * 60 }) := by
  constructor
  · intro acct vr dom auth prior now hdup
    obtain ⟨hne, heq⟩ :=
      verify_auth_dup_implies acct vr _ dom auth prior now hdup
    exact hne heq
  · intro acct vr dom auth prior now h
    rw [verify_auth_of_request_ok acct vr _ dom auth prior now h,
        if_neg (fun hc => hc.1 hc.2)]

/-- C9 witness: against a slot already holding the all-zero nullifier with
timestamps 900/1000, a fresh valid request at time 1100 is admitted again
and overwrites the record's timestamps. -/
theorem zero_nullifier_no_duplicate_witness :
    request_ok cVR cDom cAuth cPrior 1100 = true ∧
    verify_auth
        { nullifier := List.replicate 32 0, domain := [118, 101, 105, 108],
          created_at := 900, expires_at := 1000 }
        cVR (List.replicate 32 0) cDom cAuth cPrior 1100 =
      .ok { nullifier := List.replicate 32 0,
            domain := cDom.take (cDom.findIdx (fun b => b == 0)),
            created_at := 1100, expires_at := 1100 + 30 * 24 * 60 * 60 } :=
  ⟨by decide,
   zero_nullifier_no_duplicate.2
     { nullifier := List.replicate 32 0, domain := [118, 101, 105, 108],
       created_at := 900, expires_at := 1000 }
     cVR cDom cAuth cPrior 1100 (by decide)⟩

/-- C1 counterexample, refuting the claim at two concrete inputs.  First,
with the all-zero nullifier admission is not at-most-once: a first
admission at time 1100 succeeds and stores the record, and a second
admission of the same all-zero nullifier with the same valid payload at
time 1200 succeeds again — it is not rejected with `DuplicateNullifier` —
and overwrites the record's timestamps.  Second, "every later admission
attempt of the same N (with any payload) fails with DuplicateNullifier"
also fails for a nonzero admitted nullifier: a later attempt with an
empty (undecodable) payload is rejected with the decode error
`InvalidProof`, not with `DuplicateNullifier`, because the duplicate
check runs after all the other checks. -/
theorem nullifier_once_counterexample :
    (verify_auth zeroAccount cVR cN0 cDom cAuth cPrior 1100 =
      .ok { nullifier := cN0, domain := [118, 101, 105, 108],
            created_at := 1100, expires_at := 2593100 } ∧
    verify_auth
        { nullifier := cN0, domain := [118, 101, 105, 108],
          created_at := 1100, expires_at := 2593100 }
        cVR cN0 cDom cAuth cPrior 1200 =
      .ok { nullifier := cN0, domain := [118, 101, 105, 108],
            created_at := 1200, expires_at := 2593200 }) ∧
    (verify_auth zeroAccount cVR cN1 cDom cAuth cPrior 1100 =
      .ok { nullifier := cN1, domain := [118, 101, 105, 108],
            created_at := 1100, expires_at := 2593100 } ∧
    verify_auth
        { nullifier := cN1, domain := [118, 101, 105, 108],
          created_at := 1100, expires_at := 2593100 }
        [] cN1 cDom cAuth cPrior 1200 = .error .InvalidProof ∧
    VeiledError.InvalidProof ≠ VeiledError.DuplicateNullifier) :=
  ⟨⟨by decide, by decide⟩, ⟨by decide, by decide, by decide⟩⟩

/-- C1 (amended): for every nonzero nullifier N, admission is at-most-once
for the lifetime of the registry: the first admission of N with an
otherwise valid request succeeds and creates the record; afterwards no
admission attempt of N can ever succeed, and an attempt whose other checks
all pass fails precisely with `DuplicateNullifier`; and an admission of a
distinct nullifier N2 ≠ N still succeeds independently, leaving N's record
unchanged.  (For the all-zero nullifier the duplicate check never fires;
see the counterexample.) -/
theorem nullifier_admitted_at_most_once
    (N N2 : List Nat) (hN : N ≠ List.replicate 32 0)
    (vr dom auth : List Nat) (prior : List SolanaInstruction) (now : Int)
    (vr2 dom2 auth2 : List Nat) (prior2 : List SolanaInstruction)
    (now2 : Int)
    (h1 : request_ok vr dom auth prior now = true)
    (h2 : request_ok vr2 dom2 auth2 prior2 now2 = true)
    (hNe : N2 ≠ N) :
    ∃ reg1 : Registry,
      admit_request freshRegistry vr N dom auth prior now = .ok reg1 ∧
      reg1 N = { nullifier := N,
                 domain := dom.take (dom.findIdx (fun b => b == 0)),
                 created_at := now,
                 expires_at := now + 30 * 24 * 60 * 60 } ∧
      (∀ (vr3 dom3 auth3 : List Nat) (prior3 : List SolanaInstruction)
          (now3 : Int) (reg3 : Registry),
        admit_request reg1 vr3 N dom3 auth3 prior3 now3 ≠ .ok reg3) ∧
      admit_request reg1 vr2 N dom2 auth2 prior2 now2 =
        .error .DuplicateNullifier ∧
      ∃ reg2 : Registry,
        admit_request reg1 vr2 N2 dom2 auth2 prior2 now2 = .ok reg2 ∧
        (reg2 N2).nullifier = N2 ∧ reg2 N = reg1 N := by
  have hfresh : freshRegistry N = zeroAccount := rfl
  have hzero : zeroAccount.nullifier = List.replicate 32 0 := rfl
  have hva1 := verify_auth_of_request_ok zeroAccount vr N dom auth prior
    now h1
  rw [if_neg (fun hc => hc.1 (by rw [hzero]))] at hva1
  refine ⟨Function.update freshRegistry N
    { nullifier := N, domain := dom.take (dom.findIdx (fun b => b == 0)),
      created_at := now, expires_at := now + 30 * 24 * 60 * 60 },
    ?_, ?_, ?_, ?_, ?_⟩
  · unfold admit_request
    rw [hfresh, hva1]
  · rw [Function.update_same]
  · intro vr3 dom3 auth3 prior3 now3 reg3 hok
    unfold admit_request at hok
    rcases hva : verify_auth ((Function.update freshRegistry N
        { nullifier := N,
          domain := dom.take (dom.findIdx (fun b => b == 0)),
          created_at := now,
          expires_at := now + 30 * 24 * 60 * 60 }) N) vr3 N dom3 auth3
        prior3 now3 with e | acct
    · rw [hva] at hok
      exact Except.noConfusion hok
    · exact verify_auth_ne_ok_of_stored _ vr3 N dom3 auth3 prior3 now3
        (by rw [Function.update_same]) hN acct hva
  · unfold admit_request
    rw [Function.update_same]
    have hva2 := verify_auth_of_request_ok
      { nullifier := N, domain := dom.take (dom.findIdx (fun b => b == 0)),
        created_at := now, expires_at := now + 30 * 24 * 60 * 60 }
      vr2 N dom2 auth2 prior2 now2 h2
    rw [if_pos ⟨hN, rfl⟩] at hva2
    rw [hva2]
  · have hreg1N2 : (Function.update freshRegistry N
        { nullifier := N,
          domain := dom.take (dom.findIdx (fun b => b == 0)),
          created_at := now,
          expires_at := now + 30 * 24 * 60 * 60 } : Registry) N2 =
        zeroAccount := by
      rw [Function.update_noteq hNe]
      rfl
    have hva3 := verify_auth_of_request_ok zeroAccount vr2 N2 dom2 auth2
      prior2 now2 h2
    rw [if_neg (fun hc => hc.1 (by rw [hzero]))] at hva3
    refine ⟨Function.update
      (Function.update freshRegistry N
        { nullifier := N,
          domain := dom.take (dom.findIdx (fun b => b == 0)),
          created_at := now,
          expires_at := now + 30 * 24 * 60 * 60 }) N2
      { nullifier := N2,
        domain := dom2.take (dom2.findIdx (fun b => b == 0)),
        created_at := now2, expires_at := now2 + 30 * 24 * 60 * 60 },
      ?_, ?_, ?_⟩
    · unfold admit_request
      rw [hreg1N2, hva3]
    · rw [Function.update_same]
    · rw [Function.update_noteq (fun hc => hNe hc.symm)]

/-- C1 witness: the amended at-most-once property instantiated at the
concrete nonzero nullifiers `cN1` and `cN2` with the concrete valid
request, at times 1100 and 1200. -/
theorem nullifier_admitted_at_most_once_witness :
    (cN1 ≠ List.replicate 32 0 ∧
      request_ok cVR cDom cAuth cPrior 1100 = true ∧
      request_ok cVR cDom cAuth cPrior 1200 = true ∧ cN2 ≠ cN1) ∧
    (∃ reg1 : Registry,
      admit_request freshRegistry cVR cN1 cDom cAuth cPrior 1100 = .ok reg1 ∧
      reg1 cN1 = { nullifier := cN1,
                   domain := cDom.take (cDom.findIdx (fun b => b == 0)),
                   created_at := 1100,
                   expires_at := 1100 + 30 * 24 * 60 * 60 } ∧
      (∀ (vr3 dom3 auth3 : List Nat) (prior3 : List SolanaInstruction)
          (now3 : Int) (reg3 : Registry),
        admit_request reg1 vr3 cN1 dom3 auth3 prior3 now3 ≠ .ok reg3) ∧
      admit_request reg1 cVR cN1 cDom cAuth cPrior 1200 =
        .error .DuplicateNullifier ∧
      ∃ reg2 : Registry,
        admit_request reg1 cVR cN2 cDom cAuth cPrior 1200 = .ok reg2 ∧
        (reg2 cN2).nullifier = cN2 ∧ reg2 cN1 = reg1 cN1) :=
  ⟨⟨by decide, by decide, by decide, by decide⟩,
   nullifier_admitted_at_most_once cN1 cN2 (by decide) cVR cDom cAuth cPrior
     1100 cVR cDom cAuth cPrior 1200 (by decide) (by decide) (by decide)⟩

/-- The decoded form of the stale buffer `cVRstale`. -/
def cRstale : VerificationResult :=
  { is_valid := true, proof_hash := cHash, timestamp := 0,
    verifier_signature := cSig }

/-- The 41-byte signed message of the stale attestation (timestamp 0). -/
def cMsgStale : List Nat := cHash ++ [1] ++ [0, 0, 0, 0, 0, 0, 0, 0]

/-- A companion instruction payload matching the stale attestation. -/
def cCompanionStale : List Nat :=
  [1, 0, 16, 0, 255, 255, 80, 0, 255, 255, 112, 0, 41, 0, 255, 255] ++
  cSig ++ cAuth ++ cMsgStale

/-- The bundle holding the stale attestation's companion instruction. -/
def cPriorStale : List SolanaInstruction :=
  [⟨ED25519_PROGRAM_ID, 0, cCompanionStale⟩]

/-- C3 counterexample: the claimed step order (decode, then freshness,
then validity flag, then companion signature) does not match the code.  On
a stale-but-decodable request in a bundle with no companion instruction,
the freshness check fails (`ProofExpired`), yet `verify_auth` reports the
companion-signature error `InvalidProof` — so the signature match runs
before the freshness check, not after. -/
theorem pipeline_order_counterexample :
    from_instruction_data cVRstale = .ok cRstale ∧
    is_recent cRstale 1000 = .error .ProofExpired ∧
    verify_auth zeroAccount cVRstale cN1 cDom cAuth [] 1000 =
      .error .InvalidProof ∧
    VeiledError.InvalidProof ≠ VeiledError.ProofExpired :=
  ⟨by decide, by decide, by decide, by decide⟩

/-- C3 (amended): `verify_auth` validates, in order: domain label, decode,
companion-signature match, freshness, validity flag, duplicate nullifier;
each stage runs only when all earlier stages passed, the first failing
stage's error is returned, and the record (nullifier, label, created_at,
expires_at) is written exactly when every stage passes.  At registry
level, a failing admission leaves the registry unchanged. -/
theorem pipeline_order (acct : NullifierAccount) (reg : Registry)
    (vr N dom auth : List Nat) (prior : List SolanaInstruction)
    (now : Int) :
    (¬(0 < dom.findIdx (fun b => b == 0) ∧
        dom.findIdx (fun b => b == 0) ≤ 32) →
      verify_auth acct vr N dom auth prior now = .error .DomainTooLong) ∧
    ((0 < dom.findIdx (fun b => b == 0) ∧
        dom.findIdx (fun b => b == 0) ≤ 32) →
      utf8Valid (dom.take (dom.findIdx (fun b => b == 0))) = false →
      verify_auth acct vr N dom auth prior now = .error .DomainTooLong) ∧
    ((0 < dom.findIdx (fun b => b == 0) ∧
        dom.findIdx (fun b => b == 0) ≤ 32) →
      utf8Valid (dom.take (dom.findIdx (fun b => b == 0))) = true →
      ∀ e : VeiledError, from_instruction_data vr = .error e →
      verify_auth acct vr N dom auth prior now = .error .InvalidProof) ∧
    ((0 < dom.findIdx (fun b => b == 0) ∧
        dom.findIdx (fun b => b == 0) ≤ 32) →
      utf8Valid (dom.take (dom.findIdx (fun b => b == 0))) = true →
      ∀ (r : VerificationResult) (e : VeiledError),
        from_instruction_data vr = .ok r →
        validate_signature r auth prior = .error e →
      verify_auth acct vr N dom auth prior now = .error e) ∧
    ((0 < dom.findIdx (fun b => b == 0) ∧
        dom.findIdx (fun b => b == 0) ≤ 32) →
      utf8Valid (dom.take (dom.findIdx (fun b => b == 0))) = true →
      ∀ (r : VerificationResult) (e3 : VeiledError),
        from_instruction_data vr = .ok r →
        validate_signature r auth prior = .ok () →
        is_recent r now = .error e3 →
      verify_auth acct vr N dom auth prior now = .error e3) ∧
    ((0 < dom.findIdx (fun b => b == 0) ∧
        dom.findIdx (fun b => b == 0) ≤ 32) →
      utf8Valid (dom.take (dom.findIdx (fun b => b == 0))) = true →
      ∀ r : VerificationResult,
        from_instruction_data vr = .ok r →
        validate_signature r auth prior = .ok () →
        is_recent r now = .ok () →
        r.is_valid = false →
      verify_auth acct vr N dom auth prior now = .error .InvalidProof) ∧
    ((0 < dom.findIdx (fun b => b == 0) ∧
        dom.findIdx (fun b => b == 0) ≤ 32) →
      utf8Valid (dom.take (dom.findIdx (fun b => b == 0))) = true →
      ∀ r : VerificationResult,
        from_instruction_data vr = .ok r →
        validate_signature r auth prior = .ok () →
        is_recent r now = .ok () →
        r.is_valid = true →
      (acct.nullifier ≠ List.replicate 32 0 ∧ acct.nullifier = N →
        verify_auth acct vr N dom auth prior now =
          .error .DuplicateNullifier) ∧
      (¬(acct.nullifier ≠ List.replicate 32 0 ∧ acct.nullifier = N) →
        verify_auth acct vr N dom auth prior now =
          .ok { nullifier := N,
                domain := dom.take (dom.findIdx (fun b => b == 0)),
                created_at := now,
                expires_at := now + 30 * 24 * 60 * 60 })) ∧
    (∀ e : VeiledError, (run reg vr N dom auth prior now).2 = some e →
      (run reg vr N dom auth prior now).1 = reg) := by
  refine ⟨fun hd1 => ?_, fun hd1 hd2 => ?_, fun hd1 hd2 e hfd => ?_,
    fun hd1 hd2 r e hfd hvs => ?_, fun hd1 hd2 r e3 hfd hvs hir => ?_,
    fun hd1 hd2 r hfd hvs hir hval => ?_,
    fun hd1 hd2 r hfd hvs hir hval => ?_, fun e hrun => ?_⟩
  · unfold verify_auth
    rw [if_neg hd1]
  · unfold verify_auth
    rw [if_pos hd1, if_neg (by simp [hd2])]
  · unfold verify_auth
    rw [if_pos hd1, if_pos hd2, hfd]
  · unfold verify_auth
    rw [if_pos hd1, if_pos hd2, hfd]
    dsimp only []
    rw [hvs]
  · unfold verify_auth
    rw [if_pos hd1, if_pos hd2, hfd]
    dsimp only []
    rw [hvs]
    dsimp only []
    rw [hir]
  · unfold verify_auth
    rw [if_pos hd1, if_pos hd2, hfd]
    dsimp only []
    rw [hvs]
    dsimp only []
    rw [hir]
    dsimp only []
    rw [if_neg (by simp [hval])]
  · constructor
    · intro hdup
      unfold verify_auth
      rw [if_pos hd1, if_pos hd2, hfd]
      dsimp only []
      rw [hvs]
      dsimp only []
      rw [hir]
      dsimp only []
      rw [if_pos hval, if_pos hdup]
    · intro hdup
      unfold verify_auth
      rw [if_pos hd1, if_pos hd2, hfd]
      dsimp only []
      rw [hvs]
      dsimp only []
      rw [hir]
      dsimp only []
      rw [if_pos hval, if_neg hdup]
  · unfold run at hrun ⊢
    rcases hva : verify_auth (reg N) vr N dom auth prior now with e2 | a
    · rfl
    · rw [hva] at hrun
      simp at hrun

/-- C3 witness: on the concrete stale request whose companion signature
does match, the fifth stage fires: decode and signature validation pass,
the freshness check fails, and `verify_auth` reports `ProofExpired`. -/
theorem pipeline_order_witness :
    ((0 < cDom.findIdx (fun b => b == 0) ∧
        cDom.findIdx (fun b => b == 0) ≤ 32) ∧
      utf8Valid (cDom.take (cDom.findIdx (fun b => b == 0))) = true ∧
      from_instruction_data cVRstale = .ok cRstale ∧
      validate_signature cRstale cAuth cPriorStale = .ok () ∧
      is_recent cRstale 1000 = .error .ProofExpired) ∧
    verify_auth zeroAccount cVRstale cN1 cDom cAuth cPriorStale 1000 =
      .error .ProofExpired :=
  ⟨⟨by decide, by decide, by decide, by decide, by decide⟩,
   (pipeline_order zeroAccount freshRegistry cVRstale cN1 cDom cAuth
      cPriorStale 1000).2.2.2.2.1 (by decide) (by decide) cRstale
      .ProofExpired (by decide) (by decide) (by decide)⟩

/-- C7 witness: a concrete 16-byte payload declaring 2 signature entries
fails with `InvalidSignatureCount`. -/
theorem parse_checks_witness :
    16 ≤ ([2, 0, 0, 0, 0, 0, 0, 0, 0, 0, 0, 0, 0, 0, 0, 0] : List Nat).length ∧
    ([2, 0, 0, 0, 0, 0, 0, 0, 0, 0, 0, 0, 0, 0, 0, 0] : List Nat).getD 0 0 ≠ 1 ∧
    ed25519_ix_matches [2, 0, 0, 0, 0, 0, 0, 0, 0, 0, 0, 0, 0, 0, 0, 0]
      cAuth cMsg cSig = .error .InvalidSignatureCount :=
  ⟨by decide, by decide,
   (parse_checks [2, 0, 0, 0, 0, 0, 0, 0, 0, 0, 0, 0, 0, 0, 0, 0]
      cAuth cMsg cSig).2.1 (by decide) (by decide)⟩

end Veiled
